import Mathlib

/-!
Shallow embedding of the `jscom-api-client` core: the JSON/Python value
semantics its error paths depend on, the `requests`-level response model,
the two API client operations (`get_my_ip`, `update_dns`) and the error
body parsing, the configuration resolver (`load_config` plus the client
constructor validation/normalization), and the `dns update` CLI command.
Each definition mirrors the corresponding Python source in
`src/jscom-api-client/src/jscom_api/`.
-/

namespace JscomApi

/-- JSON values as produced by `response.json()` (Python `json.loads`).
Objects are modelled as association lists in insertion order with distinct
keys (what `json.loads` yields); numeric values are modelled as integers,
which covers every case exercised here. -/
inductive Json where
  | null
  | bool (b : Bool)
  | num (n : Int)
  | str (s : String)
  | arr (l : List Json)
  | obj (kvs : List (String × Json))

/-- The single-quote character, used by Python `repr` for strings and by
`str(KeyError(...))`. (Written via its code point.) -/
def sq : String := String.singleton (Char.ofNat 39)

mutual

/-- Python `repr` of a parsed-JSON value (`None`, `True`, dict/list display
forms with single-quoted strings). -/
def pyRepr : Json → String
  | .null => "None"
  | .bool true => "True"
  | .bool false => "False"
  | .num n => toString n
  | .str s => sq ++ s ++ sq
  | .arr l => "[" ++ pyReprList l ++ "]"
  | .obj kvs => "\x7b" ++ pyReprObj kvs ++ "\x7d"

/-- Comma-separated `repr`s of list elements. -/
def pyReprList : List Json → String
  | [] => ""
  | [x] => pyRepr x
  | x :: y :: xs => pyRepr x ++ ", " ++ pyReprList (y :: xs)

/-- Comma-separated key/value pairs of a dict, each rendered as the quoted key, a colon, and the repr of the value. -/
def pyReprObj : List (String × Json) → String
  | [] => ""
  | [kv] => sq ++ kv.1 ++ sq ++ ": " ++ pyRepr kv.2
  | kv :: kw :: xs => sq ++ kv.1 ++ sq ++ ": " ++ pyRepr kv.2 ++ ", " ++ pyReprObj (kw :: xs)

end

/-- Python `str` of a parsed-JSON value: a string is returned verbatim,
anything else falls back to `repr`. -/
def pyStr : Json → String
  | .str s => s
  | j => pyRepr j

/-- Python truthiness of a parsed-JSON value (`bool(x)`). -/
def pyTruthy : Json → Bool
  | .null => false
  | .bool b => b
  | .num n => n != 0
  | .str s => s != ""
  | .arr l => !l.isEmpty
  | .obj kvs => !kvs.isEmpty

/-- Python exceptions that the client code can hit while inspecting a
parsed-JSON value: `TypeError` (e.g. `"error" in 3`, `3["key"]`) and
`KeyError` on a missing dict key. -/
inductive PyExc where
  | typeError
  | keyError (k : String)
deriving DecidableEq

/-- Substring test on character lists (Python `needle in haystack` for
strings). -/
def strContainsSub (hay needle : String) : Bool :=
  (hay.data.tails).any (fun t => needle.data.isPrefixOf t)

/-- Python `in` operator applied to a parsed-JSON value: key membership
for dicts, element equality for lists, substring for strings, and a
`TypeError` for `None`, booleans, and numbers. -/
def pyContains (needle : String) : Json → Except PyExc Bool
  | .obj kvs => .ok (kvs.any (fun kv => kv.1 == needle))
  | .arr l => .ok (l.any (fun x => match x with | .str s => s == needle | _ => false))
  | .str s => .ok (strContainsSub s needle)
  | _ => .error .typeError

/-- Python subscript `value[key]` with a string key: dict lookup
(`KeyError` when absent), `TypeError` on every non-dict value. -/
def pyGetItem (j : Json) (key : String) : Except PyExc Json :=
  match j with
  | .obj kvs =>
    match kvs.find? (fun kv => kv.1 == key) with
    | some kv => .ok kv.2
    | none => .error (.keyError key)
  | _ => .error .typeError

/-- An HTTP response as seen through the `requests` API. `json?` records the
outcome of `response.json()`: `some v` when the body text parses as JSON
value `v`, `none` when parsing raises `ValueError`; `jsonErr` is the text of
that `ValueError` (meaningful only when `json? = none`). -/
structure Response where
  status_code : Nat
  text : String
  json? : Option Json
  jsonErr : String

/-- Outcome of issuing an HTTP request: either the transport layer raised
a `RequestException` (connect/timeout/DNS failure, carrying its message) or
a response came back. -/
inductive TransportResult where
  | failure (cause : String)
  | response (r : Response)

/-- Typed error taxonomy of the client (`exceptions.py`), each variant
carrying the message string of the exception. -/
inductive ApiError where
  | authentication (detail : String)
  | validation (detail : String)
  | server (detail : String)
  | network (detail : String)
deriving DecidableEq

/-- What a client operation does overall: return a value, raise one of the
four typed `JscomApiError`s, or let a plain Python exception (one the
client code does not catch) escape. -/
inductive Outcome (α : Type) where
  | ok (value : α)
  | apiError (e : ApiError)
  | pyError (e : PyExc)

/-- Response model from `GET /v1/ip/my` (`models.py`). The dataclass does
not check the type of the field, so the field holds whatever JSON value
`data["ip"]` produced. -/
structure IpResponse where
  ip : Json

/-- Response model from `POST /v1/dns/update` (`models.py`); fields are
unchecked, as above. -/
structure DnsUpdateResponse where
  message : Json
  change_info : Json

/-- Model of `JscomApiClient._parse_error_response`: derive an error-message string
from a response. Mirrors the source exactly: the `try` block parses the
body and inspects it with `in`/subscript (which can raise `TypeError` on
non-dict JSON values — only `ValueError` from the parse itself is caught);
on parse failure it falls back to `response.text` or `"HTTP {status}"`
for an empty body. -/
def parse_error_response (response : Response) : Except PyExc String :=
  match response.json? with
  | none =>
    .ok (if response.text = "" then "HTTP " ++ toString response.status_code
         else response.text)
  | some error_data => do
    let hasError ← pyContains "error" error_data
    if hasError then
      let hasMessage ← pyContains "message" error_data
      if hasMessage then
        let e ← pyGetItem error_data "error"
        let m ← pyGetItem error_data "message"
        return pyStr e ++ ": " ++ pyStr m
      else
        let e ← pyGetItem error_data "error"
        return pyStr e
    else
      return pyStr error_data

/-- Model of `JscomApiClient.get_my_ip`, as a function of the transport outcome of
its single GET request: the sequence of guard clauses from the source, in
source order (transport failure, `>= 500`, `!= 200`, JSON parse of a 200
body, then `data["ip"]` under `except KeyError`). -/
def get_my_ip (t : TransportResult) : Outcome IpResponse :=
  match t with
  | .failure cause => .apiError (.network ("Failed to connect to API: " ++ cause))
  | .response r =>
    if 500 ≤ r.status_code then
      match parse_error_response r with
      | .ok error_data => .apiError (.server ("Server error: " ++ error_data))
      | .error e => .pyError e
    else if r.status_code ≠ 200 then
      match parse_error_response r with
      | .ok error_data =>
        .apiError (.network ("Unexpected status " ++ toString r.status_code ++ ": " ++ error_data))
      | .error e => .pyError e
    else
      match r.json? with
      | none => .apiError (.network ("Invalid JSON response: " ++ r.jsonErr))
      | some data =>
        match pyGetItem data "ip" with
        | .ok v => .ok ⟨v⟩
        | .error (.keyError k) =>
          .apiError (.validation ("API response missing required field: " ++ sq ++ k ++ sq))
        | .error .typeError => .pyError .typeError

/-- Model of `JscomApiClient.update_dns`, response-classification half, as a
function of the transport outcome of its POST: the guard clauses of the source
in source order (transport failure, 403, 400, `>= 500`, `!= 200`, JSON
parse of a 200 body, then `data["message"]` and `data["change_info"]` in
that order under `except KeyError`). -/
def update_dns (t : TransportResult) : Outcome DnsUpdateResponse :=
  match t with
  | .failure cause => .apiError (.network ("Failed to connect to API: " ++ cause))
  | .response r =>
    if r.status_code = 403 then
      match parse_error_response r with
      | .ok error_data => .apiError (.authentication ("Authentication failed: " ++ error_data))
      | .error e => .pyError e
    else if r.status_code = 400 then
      match parse_error_response r with
      | .ok error_data => .apiError (.validation ("Validation error: " ++ error_data))
      | .error e => .pyError e
    else if 500 ≤ r.status_code then
      match parse_error_response r with
      | .ok error_data => .apiError (.server ("Server error: " ++ error_data))
      | .error e => .pyError e
    else if r.status_code ≠ 200 then
      match parse_error_response r with
      | .ok error_data =>
        .apiError (.network ("Unexpected status " ++ toString r.status_code ++ ": " ++ error_data))
      | .error e => .pyError e
    else
      match r.json? with
      | none => .apiError (.network ("Invalid JSON response: " ++ r.jsonErr))
      | some data =>
        match pyGetItem data "message" with
        | .error (.keyError k) =>
          .apiError (.validation ("API response missing required field: " ++ sq ++ k ++ sq))
        | .error .typeError => .pyError .typeError
        | .ok m =>
          match pyGetItem data "change_info" with
          | .error (.keyError k) =>
            .apiError (.validation ("API response missing required field: " ++ sq ++ k ++ sq))
          | .error .typeError => .pyError .typeError
          | .ok c => .ok ⟨m, c⟩

/-- An outbound HTTP request; headers are a dict in insertion order. -/
structure Request where
  method : String
  url : String
  headers : List (String × String)
  body : Json

/-- Model of `JscomApiClient.update_dns`, request-construction half: the URL,
headers and payload built from the client state (`self.base_url`,
`self.auth_token`) and the call arguments. The `x-auth-token` header is
added only when `self.auth_token` is truthy (a non-empty string). -/
def update_dns_request (base_url : String) (auth_token : Option String)
    (domain ip : String) : Request :=
  { method := "POST"
    url := base_url ++ "/v1/dns/update"
    headers :=
      [("Content-Type", "application/json")] ++
        (match auth_token with
         | some t => if t ≠ "" then [("x-auth-token", t)] else []
         | none => [])
    body := .obj [("domain", .str domain), ("ip", .str ip)] }

/-- Value of nonempty digit characters, most significant first. -/
def decDigits? (cs : List Char) : Option Nat :=
  if cs.isEmpty then none
  else cs.foldlM (fun acc c => if c.isDigit then some (acc * 10 + (c.toNat - 48)) else none) 0

/-- Mantissa of a decimal literal: `digits`, `digits.digits`, `digits.` or
`.digits`, with at least one digit overall; returns the integer part, the
value of the fractional digits, and the number of fractional digits. -/
def parseMantissa (cs : List Char) : Option (Nat × Nat × Nat) :=
  let intPart := cs.takeWhile Char.isDigit
  let rest := cs.dropWhile Char.isDigit
  match rest with
  | [] => if intPart.isEmpty then none else some ((decDigits? intPart).getD 0, 0, 0)
  | '.' :: fracCs =>
    if fracCs.all Char.isDigit ∧ ¬(intPart.isEmpty ∧ fracCs.isEmpty) then
      some ((decDigits? intPart).getD 0, (decDigits? fracCs).getD 0, fracCs.length)
    else none
  | _ => none

/-- Optional sign followed by the rest. -/
def parseSign (cs : List Char) : Int × List Char :=
  match cs with
  | '-' :: rest => (-1, rest)
  | '+' :: rest => (1, rest)
  | _ => (1, cs)

/-- Model of the Python built-in `float(s)` on its finite decimal fragment
(optional surrounding whitespace, optional sign, decimal mantissa,
optional `e`/`E` exponent), returning the exact rational value of the literal;
`none` models the `ValueError` raised on non-numeric text. Special
spellings (`inf`, `nan`, underscores, hex) are outside the fragment this
development exercises. -/
def pyFloat? (s : String) : Option Rat :=
  let cs := (s.data.dropWhile Char.isWhitespace).reverse.dropWhile Char.isWhitespace |>.reverse
  let (sgn, cs) := parseSign cs
  let mantCs := cs.takeWhile (fun c => c ≠ 'e' ∧ c ≠ 'E')
  let expCs := cs.dropWhile (fun c => c ≠ 'e' ∧ c ≠ 'E')
  match parseMantissa mantCs with
  | none => none
  | some (intVal, fracVal, fracLen) =>
    let num : Int := sgn * ((intVal : Int) * (10 : Int) ^ fracLen + (fracVal : Int))
    match expCs with
    | [] => some (mkRat num ((10 : Nat) ^ fracLen))
    | _ :: expRest =>
      let (esgn, eds) := parseSign expRest
      match decDigits? eds with
      | none => none
      | some e =>
        if esgn = 1 then some (mkRat (num * (10 : Int) ^ e) ((10 : Nat) ^ fracLen))
        else some (mkRat num ((10 : Nat) ^ (fracLen + e)))

/-- The three environment variables read by `load_config`, each `none` when
unset (`os.getenv` can also yield the empty string when set but empty). -/
structure Env where
  jscom_api_base_url : Option String
  jscom_api_token : Option String
  jscom_api_timeout : Option String

/-- The frozen `Config` dataclass (`config.py`) with its field defaults.
The dataclass itself performs no validation. -/
structure Config where
  base_url : String := "https://api.johnsosoka.com"
  auth_token : Option String := none
  timeout : Rat := 30
deriving DecidableEq

/-- Python truthiness of an optional string (`None` and `""` are falsy). -/
def truthyStr : Option String → Option String
  | some s => if s = "" then none else some s
  | none => none

/-- Model of `load_config` (`config.py`): resolve each field as in the source.
`base_url or getenv(...) or default` and `auth_token or getenv(...)` use
Python `or` (truthiness, so empty strings fall through); the timeout
argument is compared against `None`, and a set, nonempty timeout variable
is passed to `float`, with `ValueError` mapped to the default. -/
def load_config (base_url : Option String) (auth_token : Option String)
    (timeout : Option Rat) (env : Env) : Config :=
  let default_config : Config := {}
  let resolved_base_url :=
    match truthyStr base_url with
    | some s => s
    | none =>
      match truthyStr env.jscom_api_base_url with
      | some s => s
      | none => default_config.base_url
  let resolved_auth_token :=
    match truthyStr auth_token with
    | some s => some s
    | none => env.jscom_api_token
  let resolved_timeout :=
    match timeout with
    | some t => t
    | none =>
      match env.jscom_api_timeout with
      | none => default_config.timeout
      | some env_timeout =>
        if env_timeout = "" then default_config.timeout
        else
          match pyFloat? env_timeout with
          | some v => v
          | none => default_config.timeout
  { base_url := resolved_base_url
    auth_token := resolved_auth_token
    timeout := resolved_timeout }

/-- Model of `str.rstrip` with argument `"/"`: remove every trailing `'/'`. -/
def rstripSlash (s : String) : String :=
  ⟨(s.data.reverse.dropWhile (fun c => c == '/')).reverse⟩

/-- Configuration-derived state of the client after `__init__` ran. -/
structure ClientState where
  base_url : String
  auth_token : Option String
  timeout : Rat
deriving DecidableEq

/-- Model of `JscomApiClient.__init__`: raises `ValueError` when `timeout <= 0`,
otherwise stores `base_url.rstrip("/")`, the token and the timeout. -/
def client_init (base_url : String) (auth_token : Option String)
    (timeout : Rat) : Except String ClientState :=
  if timeout ≤ 0 then
    .error ("timeout must be positive, got " ++ toString timeout)
  else
    .ok { base_url := rstripSlash base_url, auth_token := auth_token, timeout := timeout }

/-- Configuration Resolver `resolve(...)` of the spec: `load_config`
followed by client construction, exactly as the CLI wires them
(`load_config(...)` then `JscomApiClient(base_url=config.base_url,
auth_token=config.auth_token, timeout=config.timeout)`). A construction
error is the `ValueError` from `__init__`. -/
def resolve (base_url : Option String) (auth_token : Option String)
    (timeout : Option Rat) (env : Env) : Except String ClientState :=
  let config := load_config base_url auth_token timeout env
  client_init config.base_url config.auth_token config.timeout

/-- Whether a string ends with the `'/'` character. -/
def endsWithSlash (s : String) : Bool :=
  match s.data.getLast? with
  | some c => c == '/'
  | none => false

/-- The timeout of a resolved configuration, `none` when `resolve` failed
with a construction error. -/
def timeoutOf? : Except String ClientState → Option Rat
  | .ok c => some c.timeout
  | .error _ => none

/-- Network calls a CLI invocation issues, in order: the `get_my_ip` GET,
and the `update_dns` POST with the domain and target IP it was given (the
target is a JSON value because a fetched IP is passed through unchecked). -/
inductive CliCall where
  | getMyIpCall
  | updateDnsCall (domain : String) (ip : Json)

/-- Observable result of a CLI command invocation: the process exit code,
the network calls issued in order, and the lines printed to the error
stream (with their rich-markup tags, as written in the source). -/
structure CmdResult where
  exitCode : Nat
  calls : List CliCall
  errOut : List String

/-- Exit code chosen by the `dns update` exception handlers for a typed
API error: `AuthenticationError` exits 2, every other handler exits 1. -/
def apiErrorExitCode : ApiError → Nat
  | .authentication _ => 2
  | _ => 1

/-- Error-stream line printed by the `dns update` exception handlers for a
typed API error (`str(e)` is the message of the exception). -/
def apiErrorCliMsg : ApiError → String
  | .authentication d =>
    "[red]Authentication failed:[/red] " ++ d ++
      "\n[yellow]Hint:[/yellow] Set JSCOM_API_TOKEN env var or use --token option"
  | .validation d => "[red]Validation error:[/red] " ++ d
  | .network d => "[red]Network error:[/red] " ++ d
  | .server d => "[red]Server error:[/red] " ++ d

/-- Stand-in for `str(e)` of an uncaught Python exception; the interpreter
wording of `TypeError`s is not modelled and nothing here depends on it. -/
def pyExcStr : PyExc → String
  | .typeError => "TypeError"
  | .keyError k => sq ++ k ++ sq

/-- Error-stream line of the generic `except Exception` handler. -/
def unexpectedCliMsg (e : PyExc) : String :=
  "[red]Unexpected error:[/red] " ++ pyExcStr e

/-- The `dns update` message for `--ip` together with `--use-current-ip`. -/
def mutualExclusiveMsg : String :=
  "[red]Error:[/red] --ip and --use-current-ip are mutually exclusive. Provide one or the other."

/-- The `dns update` message for neither `--ip` nor `--use-current-ip`. -/
def eitherRequiredMsg : String :=
  "[red]Error:[/red] Either --ip or --use-current-ip must be provided."

/-- The `dns update` message for a falsy target IP. Raising
`typer.Exit(code=1)` there happens inside the `try` block, so the generic
`except Exception` handler also prints its line and re-raises `Exit(1)`;
the exit code is 1 either way. -/
def noIpAvailableErrOut : List String :=
  ["[red]Error:[/red] No IP address available",
   "[red]Unexpected error:[/red] 1"]

/-- Tail of the `dns update` command after the target IP is known
(`target_ip` in the source): the `if not target_ip` truthiness guard, the
`update_dns` call, and on success the change-info rendering, whose
`result.change_info.items()` raises (caught by the generic handler) when
`change_info` is a truthy non-dict value. -/
def dns_update_finish (domain : String) (target : Json) (calls₀ : List CliCall)
    (dnsTransport : TransportResult) : CmdResult :=
  if pyTruthy target then
    let calls := calls₀ ++ [.updateDnsCall domain target]
    match update_dns dnsTransport with
    | .apiError e => ⟨apiErrorExitCode e, calls, [apiErrorCliMsg e]⟩
    | .pyError e => ⟨1, calls, [unexpectedCliMsg e]⟩
    | .ok result =>
      if pyTruthy result.change_info then
        match result.change_info with
        | .obj _ => ⟨0, calls, []⟩
        | _ => ⟨1, calls, [unexpectedCliMsg .typeError]⟩
      else ⟨0, calls, []⟩
  else ⟨1, calls₀, noIpAvailableErrOut⟩

/-- The `dns update` CLI command (`cli/main.py, dns_update`) as a function
of its arguments and of the transport outcomes its two possible client
calls would see. The two argument-validation guards run before the `try`
block; configuration loading and client construction are taken as
succeeding (their behavior is `resolve`, settled separately); `--ip` and
the fetched IP are tested by Python truthiness. Standard-output rendering
is not tracked. -/
def dns_update_cmd (domain : String) (ip_address : Option String)
    (use_current_ip : Bool) (ipTransport dnsTransport : TransportResult) : CmdResult :=
  let ipTruthy := (truthyStr ip_address).isSome
  if ipTruthy && use_current_ip then
    ⟨1, [], [mutualExclusiveMsg]⟩
  else if !ipTruthy && !use_current_ip then
    ⟨1, [], [eitherRequiredMsg]⟩
  else
    let target₀ : Json := match ip_address with | some s => .str s | none => .null
    if use_current_ip then
      match get_my_ip ipTransport with
      | .apiError e => ⟨apiErrorExitCode e, [.getMyIpCall], [apiErrorCliMsg e]⟩
      | .pyError e => ⟨1, [.getMyIpCall], [unexpectedCliMsg e]⟩
      | .ok r => dns_update_finish domain r.ip [.getMyIpCall] dnsTransport
    else
      dns_update_finish domain target₀ [] dnsTransport

/-- Reference definition following the words of the spec for the Error-Body
Parser (§4.3), for comparison with `parse_error_response`: with an `error`
key and a `message` key return `"{error}: {message}"`, with `error` alone
return `str(error)`, with no `error` key return the stringified full body. -/
def specParsedBodyMsg (body : Json) : String :=
  match body with
  | .obj kvs =>
    match kvs.find? (fun kv => kv.1 == "error") with
    | some kv =>
      match kvs.find? (fun kv2 => kv2.1 == "message") with
      | some kv2 => pyStr kv.2 ++ ": " ++ pyStr kv2.2
      | none => pyStr kv.2
    | none => pyStr body
  | _ => pyStr body

/-- Reference definition following the words of the spec (§4.3), full parser:
on parse failure return the raw response text, or `"HTTP {status}"` when
the body is empty; otherwise classify the parsed body. -/
def specErrorBody (r : Response) : String :=
  match r.json? with
  | none => if r.text = "" then "HTTP " ++ toString r.status_code else r.text
  | some body => specParsedBodyMsg body

/-- How a `dns update` invocation can fail, per the error model of the spec: an
argument-usage failure before any client call, a typed API error, or an
uncaught/unexpected exception. -/
inductive CmdFailure where
  | argUsage
  | api (e : ApiError)
  | unexpected

/-- Which failure (if any) the tail of the `dns update` flow surfaces:
the falsy-target guard, the `update_dns` outcome, and the change-info
rendering. -/
def dns_update_finish_failure (target : Json) (dnsTransport : TransportResult) :
    Option CmdFailure :=
  if pyTruthy target then
    match update_dns dnsTransport with
    | .apiError e => some (.api e)
    | .pyError _ => some .unexpected
    | .ok result =>
      if pyTruthy result.change_info then
        match result.change_info with
        | .obj _ => none
        | _ => some .unexpected
      else none
  else some .unexpected

/-- Which failure (if any) a `dns update` invocation surfaces — `none`
exactly when the invocation is fully successful. -/
def dns_update_failure (ip_address : Option String) (use_current_ip : Bool)
    (ipTransport dnsTransport : TransportResult) : Option CmdFailure :=
  let ipTruthy := (truthyStr ip_address).isSome
  if ipTruthy && use_current_ip then some .argUsage
  else if !ipTruthy && !use_current_ip then some .argUsage
  else if use_current_ip then
    match get_my_ip ipTransport with
    | .apiError e => some (.api e)
    | .pyError _ => some .unexpected
    | .ok r => dns_update_finish_failure r.ip dnsTransport
  else
    dns_update_finish_failure (match ip_address with | some s => .str s | none => .null)
      dnsTransport

/-- Exit-code mapping of the claim: success exits 0, an Authentication
failure exits 2, every other failure (argument usage, Validation, Server,
Network, unexpected) exits 1. -/
def exit_code_of_failure : Option CmdFailure → Nat
  | none => 0
  | some (.api (.authentication _)) => 2
  | some _ => 1

/-- Whether an outcome is the `AuthenticationError` typed error. -/
def isAuthenticationError {α : Type} : Outcome α → Bool
  | .apiError (.authentication _) => true
  | _ => false

/-- Whether the outcome of an operation stays inside the client contract: a
success value or one of the four typed errors (not an escaping plain
Python exception). -/
def typedOrOk {α : Type} : Outcome α → Bool
  | .pyError _ => false
  | _ => true

/-- Transport outcomes whose body, if any, is either unparseable JSON or a
JSON object. -/
def bodyObjOrUnparsed : TransportResult → Prop
  | .failure _ => True
  | .response r => r.json? = none ∨ ∃ kvs, r.json? = some (.obj kvs)

/-! Helper lemmas. -/

lemma any_eq_isSome_find? {α : Type} (p : α → Bool) (l : List α) :
    l.any p = (l.find? p).isSome := by
  induction l with
  | nil => rfl
  | cons a l ih =>
    by_cases h : p a <;> simp [List.any_cons, List.find?_cons, h, ih]

lemma head?_dropWhile_not {α : Type} (p : α → Bool) (l : List α) (a : α)
    (h : (l.dropWhile p).head? = some a) : p a = false := by
  induction l with
  | nil => simp [List.dropWhile] at h
  | cons b l ih =>
    by_cases hb : p b
    · rw [List.dropWhile_cons_of_pos hb] at h
      exact ih h
    · rw [List.dropWhile_cons_of_neg hb] at h
      simp only [List.head?_cons, Option.some.injEq] at h
      subst h
      simpa using hb

lemma parse_error_response_none (r : Response) (h : r.json? = none) :
    parse_error_response r = .ok (specErrorBody r) := by
  unfold parse_error_response specErrorBody
  rw [h]

lemma parse_error_response_obj (r : Response) (kvs : List (String × Json))
    (h : r.json? = some (.obj kvs)) :
    parse_error_response r = .ok (specErrorBody r) := by
  unfold parse_error_response specErrorBody specParsedBodyMsg
  rw [h]
  rcases h1 : kvs.find? (fun kv => kv.1 == "error") with _ | kv
  · have ha : kvs.any (fun kv => kv.1 == "error") = false := by
      rw [any_eq_isSome_find?]; simp [h1]
    simp [pyContains, ha, Bind.bind, Except.bind, Pure.pure, Except.pure, h1]
  · have ha : kvs.any (fun kv => kv.1 == "error") = true := by
      rw [any_eq_isSome_find?]; simp [h1]
    rcases h2 : kvs.find? (fun kv2 => kv2.1 == "message") with _ | kv2
    · have hm : kvs.any (fun kv => kv.1 == "message") = false := by
        rw [any_eq_isSome_find?]
        rw [show kvs.find? (fun kv => kv.1 == "message") = none from h2]
        rfl
      simp [pyContains, ha, hm, Bind.bind, Except.bind, Pure.pure, Except.pure,
        pyGetItem, h1, h2]
    · have hm : kvs.any (fun kv => kv.1 == "message") = true := by
        rw [any_eq_isSome_find?]
        rw [show kvs.find? (fun kv => kv.1 == "message") = some kv2 from h2]
        rfl
      simp [pyContains, ha, hm, Bind.bind, Except.bind, Pure.pure, Except.pure,
        pyGetItem, h1, h2]

lemma string_ext {a b : String} (h : a.data = b.data) : a = b := by
  cases a; cases b; exact congrArg String.mk h

lemma rstripSlash_not_endsWithSlash (s : String) :
    endsWithSlash (rstripSlash s) = false := by
  unfold endsWithSlash rstripSlash
  rw [show (String.mk ((s.data.reverse.dropWhile (fun c => c == '/')).reverse)).data
      = (s.data.reverse.dropWhile (fun c => c == '/')).reverse from rfl]
  rw [List.getLast?_reverse]
  cases hh : (s.data.reverse.dropWhile (fun c => c == '/')).head? with
  | none => rfl
  | some a => simpa using head?_dropWhile_not _ _ _ hh

lemma rstripSlash_append (s : String) :
    ∃ n, s = rstripSlash s ++ String.mk (List.replicate n '/') := by
  refine ⟨(s.data.reverse.takeWhile (fun c => c == '/')).length, string_ext ?_⟩
  rw [String.data_append]
  rw [show (rstripSlash s).data = (s.data.reverse.dropWhile (fun c => c == '/')).reverse from rfl]
  rw [show (String.mk (List.replicate
      (s.data.reverse.takeWhile (fun c => c == '/')).length '/')).data
      = List.replicate (s.data.reverse.takeWhile (fun c => c == '/')).length '/' from rfl]
  have hrep : s.data.reverse.takeWhile (fun c => c == '/')
      = List.replicate (s.data.reverse.takeWhile (fun c => c == '/')).length '/' := by
    refine List.eq_replicate_of_mem (fun b hb => ?_)
    simpa using List.mem_takeWhile_imp hb
  conv_lhs => rw [← s.data.reverse_reverse,
    ← List.takeWhile_append_dropWhile (fun c => c == '/') s.data.reverse]
  rw [List.reverse_append]
  congr 1
  rw [← List.reverse_replicate, ← hrep]

lemma resolve_timeout_eq (bu tok : Option String) (t : Option Rat) (env : Env) :
    timeoutOf? (resolve bu tok t env)
      = (if (load_config bu tok t env).timeout ≤ 0 then none
         else some (load_config bu tok t env).timeout) := by
  unfold timeoutOf? resolve client_init
  by_cases h : (load_config bu tok t env).timeout ≤ 0 <;> simp [h]

lemma load_config_timeout_some (bu tok : Option String) (t : Rat) (env : Env) :
    (load_config bu tok (some t) env).timeout = t := rfl

lemma load_config_timeout_none (bu tok : Option String) (env : Env) :
    (load_config bu tok none env).timeout
      = (match env.jscom_api_timeout with
         | none => 30
         | some s =>
           if s = "" then 30
           else match pyFloat? s with | some v => v | none => 30) := rfl

/-! Claims. -/

/-- C3 counterexample: with no explicit timeout and the timeout
environment variable set to `"-5"` — a value that is parseable as a
number but not as a positive number — the claim says the default of 30 is
used silently; the code instead parses it to `-5`, and `resolve` then
fails with a construction error. -/
theorem c3_counterexample :
    (load_config none none none ⟨none, none, some "-5"⟩).timeout = -5 ∧
    timeoutOf? (resolve none none none ⟨none, none, some "-5"⟩) = none := by
  constructor <;> decide

/-- C3 (amended): an explicit timeout > 0 is used; an explicit timeout
≤ 0 fails with a construction error; a timeout environment value that is
unset, empty, or not parseable as a number yields the default 30 silently;
a value parseable as a number is used — so a positive parse resolves to
that value, and a non-positive parse also fails with a construction
error (the soft-fallback covers only unparseable text, not non-positive
numbers). -/
theorem c3_resolve_timeout
    (bu tok : Option String) (env : Env) :
    (∀ t : Rat, 0 < t → timeoutOf? (resolve bu tok (some t) env) = some t) ∧
    (∀ t : Rat, t ≤ 0 → timeoutOf? (resolve bu tok (some t) env) = none) ∧
    ((env.jscom_api_timeout = none ∨ env.jscom_api_timeout = some "" ∨
        ∃ s, env.jscom_api_timeout = some s ∧ pyFloat? s = none) →
      timeoutOf? (resolve bu tok none env) = some 30) ∧
    (∀ s v, env.jscom_api_timeout = some s → s ≠ "" → pyFloat? s = some v →
      0 < v → timeoutOf? (resolve bu tok none env) = some v) ∧
    (∀ s v, env.jscom_api_timeout = some s → s ≠ "" → pyFloat? s = some v →
      v ≤ 0 → timeoutOf? (resolve bu tok none env) = none) := by
  refine ⟨?_, ?_, ?_, ?_, ?_⟩
  · intro t ht
    rw [resolve_timeout_eq, load_config_timeout_some, if_neg (not_le.mpr ht)]
  · intro t ht
    rw [resolve_timeout_eq, load_config_timeout_some, if_pos ht]
  · intro h
    have h30 : (load_config bu tok none env).timeout = 30 := by
      rw [load_config_timeout_none]
      rcases h with h | h | ⟨s, hs, hp⟩
      · simp [h]
      · simp [h]
      · rw [hs]
        by_cases hse : s = "" <;> simp [hse, hp]
    rw [resolve_timeout_eq, h30, if_neg (by norm_num)]
  · intro s v hs hse hp hv
    have hval : (load_config bu tok none env).timeout = v := by
      rw [load_config_timeout_none, hs]
      simp [hse, hp]
    rw [resolve_timeout_eq, hval, if_neg (not_le.mpr hv)]
  · intro s v hs hse hp hv
    have hval : (load_config bu tok none env).timeout = v := by
      rw [load_config_timeout_none, hs]
      simp [hse, hp]
    rw [resolve_timeout_eq, hval, if_pos hv]

/-- C3 witness: a parseable, positive environment timeout (`"30"` with no
explicit argument) resolves to that value. -/
theorem c3_resolve_timeout_witness :
    timeoutOf? (resolve none none none ⟨none, none, some "30"⟩) = some 30 :=
  (c3_resolve_timeout none none ⟨none, none, some "30"⟩).2.2.2.1 "30" 30
    rfl (by decide) (by decide) (by norm_num)

/-- C4 counterexample: the explicit base-URL argument `""` is supplied but
does not override the environment variable — `load_config` tests the
argument by Python truthiness, so the empty string falls through to the
environment value. -/
theorem c4_counterexample :
    (load_config (some "") none none ⟨some "http://env", none, none⟩).base_url
        = "http://env" ∧
    (load_config (some "") none none ⟨some "http://env", none, none⟩).base_url
        ≠ "" := by
  constructor <;> decide

/-- C4 (amended): per-field precedence of the resolver, where "supplied"
and "set" follow Python truthiness: a non-empty explicit base URL or token
overrides a non-empty environment value, which overrides the default (base
URL the fixed literal, token the raw environment value — absent only when
the variable is unset); an explicit timeout is used whenever passed, a
set, nonempty environment timeout is used when it parses as a number and
falls back to 30 otherwise, and an unset or empty variable yields 30. -/
theorem c4_load_config_precedence :
    (∀ bu tok t env s, bu = some s → s ≠ "" →
      (load_config bu tok t env).base_url = s) ∧
    (∀ bu tok t env s, truthyStr bu = none → env.jscom_api_base_url = some s →
      s ≠ "" → (load_config bu tok t env).base_url = s) ∧
    (∀ bu tok t env, truthyStr bu = none → truthyStr env.jscom_api_base_url = none →
      (load_config bu tok t env).base_url = "https://api.johnsosoka.com") ∧
    (∀ bu tok t env s, tok = some s → s ≠ "" →
      (load_config bu tok t env).auth_token = some s) ∧
    (∀ bu tok t env, truthyStr tok = none →
      (load_config bu tok t env).auth_token = env.jscom_api_token) ∧
    (∀ bu tok env v, (load_config bu tok (some v) env).timeout = v) ∧
    (∀ bu tok env, truthyStr env.jscom_api_timeout = none →
      (load_config bu tok none env).timeout = 30) ∧
    (∀ bu tok env s, env.jscom_api_timeout = some s → s ≠ "" →
      (load_config bu tok none env).timeout = (pyFloat? s).getD 30) := by
  refine ⟨?_, ?_, ?_, ?_, ?_, ?_, ?_, ?_⟩
  · intro bu tok t env s hbu hs
    subst hbu
    simp [load_config, truthyStr, hs]
  · intro bu tok t env s hbu henv hs
    simp only [load_config]
    rw [hbu, henv]
    simp [truthyStr, hs]
  · intro bu tok t env hbu henv
    simp only [load_config]
    rw [hbu, henv]
  · intro bu tok t env s htok hs
    subst htok
    simp [load_config, truthyStr, hs]
  · intro bu tok t env htok
    simp [load_config, htok]
  · intro bu tok env v
    exact load_config_timeout_some bu tok v env
  · intro bu tok env htv
    rw [load_config_timeout_none]
    rcases hs' : env.jscom_api_timeout with _ | s'
    · rfl
    · rw [hs'] at htv
      unfold truthyStr at htv
      by_cases hse : s' = ""
      · simp [hse]
      · simp [hse] at htv
  · intro bu tok env s hs hse
    rw [load_config_timeout_none, hs]
    rcases hp : pyFloat? s with _ | v <;> simp [hse, hp]

/-- C4 witness: a non-empty explicit base URL overrides a set environment
variable. -/
theorem c4_load_config_precedence_witness :
    (load_config (some "http://arg") none none
        ⟨some "http://env", none, none⟩).base_url = "http://arg" :=
  c4_load_config_precedence.1 (some "http://arg") none none
    ⟨some "http://env", none, none⟩ "http://arg" rfl (by decide)

/-- C5: whenever `resolve` succeeds, the resulting base URL is the
precedence-selected value with every trailing slash (one or more)
removed, and in particular never ends in `"/"`. -/
theorem c5_base_url_no_trailing_slash
    (bu tok : Option String) (t : Option Rat) (env : Env) (c : ClientState)
    (h : resolve bu tok t env = .ok c) :
    endsWithSlash c.base_url = false ∧
    ∃ n, (load_config bu tok t env).base_url
        = c.base_url ++ String.mk (List.replicate n '/') := by
  have hc : c.base_url = rstripSlash (load_config bu tok t env).base_url := by
    unfold resolve client_init at h
    by_cases ht : (load_config bu tok t env).timeout ≤ 0
    · rw [if_pos ht] at h; cases h
    · rw [if_neg ht] at h
      injection h with h'
      rw [← h']
  rw [hc]
  exact ⟨rstripSlash_not_endsWithSlash _, rstripSlash_append _⟩

/-- C5 witness: a base URL with two trailing slashes resolves with both
stripped. -/
theorem c5_base_url_no_trailing_slash_witness :
    endsWithSlash (ClientState.base_url ⟨"https://x", none, 30⟩) = false ∧
    ∃ n, (load_config (some "https://x//") none none ⟨none, none, none⟩).base_url
        = ClientState.base_url ⟨"https://x", none, 30⟩ ++ String.mk (List.replicate n '/') :=
  c5_base_url_no_trailing_slash (some "https://x//") none none ⟨none, none, none⟩
    ⟨"https://x", none, 30⟩ rfl

/-- C8: the request built by `update_dns(domain, ip)` is a POST to
`{base_url}/v1/dns/update` whose JSON body is exactly
`{"domain": domain, "ip": ip}`, with a `Content-Type: application/json`
header, and with `x-auth-token` present (equal to the configured token)
exactly when a non-empty token is configured — otherwise the header is
absent, never present-and-empty. -/
theorem c8_update_dns_request_shape (base_url : String) (auth_token : Option String)
    (domain ip : String) :
    (update_dns_request base_url auth_token domain ip).method = "POST" ∧
    (update_dns_request base_url auth_token domain ip).url
        = base_url ++ "/v1/dns/update" ∧
    (update_dns_request base_url auth_token domain ip).body
        = .obj [("domain", .str domain), ("ip", .str ip)] ∧
    (update_dns_request base_url auth_token domain ip).headers.lookup "Content-Type"
        = some "application/json" ∧
    (update_dns_request base_url auth_token domain ip).headers.lookup "x-auth-token"
        = truthyStr auth_token := by
  refine ⟨rfl, rfl, rfl, ?_, ?_⟩ <;>
    rcases auth_token with _ | t
  · rfl
  · by_cases ht : t = "" <;> simp [update_dns_request, List.lookup, ht]
  · rfl
  · by_cases ht : t = "" <;> simp [update_dns_request, List.lookup, truthyStr, ht]

/-- C2 counterexample: a body whose JSON parses to the non-object value
`null` makes `_parse_error_response` raise — `"error" in None` is a
`TypeError`, and only `ValueError` is caught — so the parser does not
return a string for every response. -/
theorem c2_counterexample :
    parse_error_response ⟨404, "null", some .null, ""⟩ = .error .typeError :=
  rfl

/-- C2 (amended): for every response whose body fails to parse as JSON and
for every response whose body parses to a JSON object, the error-body
parser returns a string, never raises, and follows the stated rules
(`"{error}: {message}"`, `str(error)`, stringified full body, raw text,
`"HTTP {status}"` for an empty unparseable body); bodies parsing to
non-object JSON values are excluded, since the membership test can raise
`TypeError` there. -/
theorem c2_parse_error_response_rules (r : Response)
    (h : r.json? = none ∨ ∃ kvs, r.json? = some (.obj kvs)) :
    parse_error_response r = .ok (specErrorBody r) := by
  rcases h with hj | ⟨kvs, hj⟩
  · exact parse_error_response_none r hj
  · exact parse_error_response_obj r kvs hj

/-- C2 witness: a body with both `error` and `message` keys yields
`"{error}: {message}"`. -/
theorem c2_parse_error_response_rules_witness :
    parse_error_response
        ⟨500, "", some (.obj [("error", .str "Boom"), ("message", .str "db down")]), ""⟩
      = .ok "Boom: db down" :=
  c2_parse_error_response_rules
    ⟨500, "", some (.obj [("error", .str "Boom"), ("message", .str "db down")]), ""⟩
    (Or.inr ⟨[("error", .str "Boom"), ("message", .str "db down")], rfl⟩)

/-- C1 counterexample: a 403 response whose body parses to the JSON number
`3` does not raise an Authentication error — building the error detail
raises `TypeError` (`"error" in 3`), which escapes — so a 403 is not an
Authentication error regardless of the body. -/
theorem c1_counterexample :
    update_dns (.response ⟨403, "3", some (.num 3), ""⟩) = .pyError .typeError ∧
    isAuthenticationError (update_dns (.response ⟨403, "3", some (.num 3), ""⟩))
      = false :=
  ⟨rfl, rfl⟩

/-- C1 (amended): both operations classify by the priority ladder in
order — transport failure first; then for `update_dns` status 403
(Authentication), then 400 (Validation), then ≥ 500 (Server), then any
other non-200 (Network), then body checks on a 200; `get_my_ip` has only
the ≥ 500 and non-200 rungs. A 403 yields an Authentication error
whenever the error-body parser returns a string — in particular for every
unparseable body, never a Network error — while a body on which the
parser raises (non-object JSON) propagates that exception instead. -/
theorem c1_status_ladder :
    (∀ cause, update_dns (.failure cause)
        = .apiError (.network ("Failed to connect to API: " ++ cause))) ∧
    (∀ r d, r.status_code = 403 → parse_error_response r = .ok d →
      update_dns (.response r) = .apiError (.authentication ("Authentication failed: " ++ d))) ∧
    (∀ r, r.status_code = 403 → r.json? = none →
      update_dns (.response r) = .apiError (.authentication ("Authentication failed: " ++
        (if r.text = "" then "HTTP " ++ toString r.status_code else r.text)))) ∧
    (∀ r e, r.status_code = 403 → parse_error_response r = .error e →
      update_dns (.response r) = .pyError e) ∧
    (∀ r d, r.status_code = 400 → parse_error_response r = .ok d →
      update_dns (.response r) = .apiError (.validation ("Validation error: " ++ d))) ∧
    (∀ r d, 500 ≤ r.status_code → parse_error_response r = .ok d →
      update_dns (.response r) = .apiError (.server ("Server error: " ++ d))) ∧
    (∀ r d, r.status_code ≠ 403 → r.status_code ≠ 400 → r.status_code < 500 →
      r.status_code ≠ 200 → parse_error_response r = .ok d →
      update_dns (.response r)
        = .apiError (.network ("Unexpected status " ++ toString r.status_code ++ ": " ++ d))) ∧
    (∀ r, r.status_code = 200 → r.json? = none →
      update_dns (.response r) = .apiError (.network ("Invalid JSON response: " ++ r.jsonErr))) ∧
    (∀ cause, get_my_ip (.failure cause)
        = .apiError (.network ("Failed to connect to API: " ++ cause))) ∧
    (∀ r d, 500 ≤ r.status_code → parse_error_response r = .ok d →
      get_my_ip (.response r) = .apiError (.server ("Server error: " ++ d))) ∧
    (∀ r d, r.status_code < 500 → r.status_code ≠ 200 → parse_error_response r = .ok d →
      get_my_ip (.response r)
        = .apiError (.network ("Unexpected status " ++ toString r.status_code ++ ": " ++ d))) ∧
    (∀ r, r.status_code = 200 → r.json? = none →
      get_my_ip (.response r) = .apiError (.network ("Invalid JSON response: " ++ r.jsonErr))) := by
  refine ⟨fun cause => rfl, ?_, ?_, ?_, ?_, ?_, ?_, ?_, fun cause => rfl, ?_, ?_, ?_⟩
  · intro r d h403 hp
    simp [update_dns, h403, hp]
  · intro r h403 hj
    have hp := parse_error_response_none r hj
    simp only [specErrorBody, hj] at hp
    simp [update_dns, h403, hp]
  · intro r e h403 hp
    simp [update_dns, h403, hp]
  · intro r d h400 hp
    simp [update_dns, h400, hp]
  · intro r d h500 hp
    have h1 : r.status_code ≠ 403 := by omega
    have h2 : r.status_code ≠ 400 := by omega
    simp [update_dns, h1, h2, h500, hp]
  · intro r d h1 h2 h5 h200 hp
    have h5' : ¬ 500 ≤ r.status_code := by omega
    simp [update_dns, h1, h2, h5', h200, hp]
  · intro r h200 hj
    simp [update_dns, h200, hj]
  · intro r d h500 hp
    simp [get_my_ip, h500, hp]
  · intro r d h5 h200 hp
    have h5' : ¬ 500 ≤ r.status_code := by omega
    simp [get_my_ip, h5', h200, hp]
  · intro r h200 hj
    simp [get_my_ip, h200, hj]

/-- C1 witness: a 403 with an unparseable empty body is an Authentication
error with detail built from `"HTTP 403"`, not a Network error. -/
theorem c1_status_ladder_witness :
    update_dns (.response ⟨403, "", none, ""⟩)
      = .apiError (.authentication ("Authentication failed: " ++
          (if ("" : String) = "" then "HTTP " ++ toString (403 : Nat) else ""))) :=
  c1_status_ladder.2.2.1 ⟨403, "", none, ""⟩ rfl rfl

/-- C6 counterexample: a 400 response whose body parses to the JSON number
`3` makes `update_dns` leak a plain `TypeError` (raised while building the
Validation detail), so not every failure is surfaced as one of the four
typed errors. -/
theorem c6_counterexample :
    update_dns (.response ⟨400, "3", some (.num 3), ""⟩) = .pyError .typeError ∧
    typedOrOk (update_dns (.response ⟨400, "3", some (.num 3), ""⟩)) = false :=
  ⟨rfl, rfl⟩

/-- C6 (amended): for every transport failure and every response whose
body fails to parse or parses to a JSON object, both `get_my_ip` and
`update_dns` either succeed or surface exactly one of the four typed
errors (each typed-error constructor carries a detail string); responses
whose JSON body is a non-object value are excluded, since inspecting them
can raise a `TypeError` that escapes untyped. -/
theorem c6_failures_typed (t : TransportResult) (h : bodyObjOrUnparsed t) :
    typedOrOk (get_my_ip t) = true ∧ typedOrOk (update_dns t) = true := by
  cases t with
  | failure cause => exact ⟨rfl, rfl⟩
  | response r =>
    obtain ⟨s, hp⟩ : ∃ s, parse_error_response r = .ok s := by
      rcases h with hj | ⟨kvs, hj⟩
      · exact ⟨_, parse_error_response_none r hj⟩
      · exact ⟨_, parse_error_response_obj r kvs hj⟩
    constructor
    · unfold get_my_ip
      by_cases h5 : 500 ≤ r.status_code
      · simp [h5, hp, typedOrOk]
      · by_cases h2 : r.status_code = 200
        · rcases h with hj | ⟨kvs, hj⟩
          · simp [h5, h2, hj, typedOrOk]
          · rcases hfind : kvs.find? (fun kv => kv.1 == "ip") with _ | kv <;>
              simp [h5, h2, hj, typedOrOk, pyGetItem, hfind]
        · simp [h5, h2, hp, typedOrOk]
    · unfold update_dns
      by_cases h403 : r.status_code = 403
      · simp [h403, hp, typedOrOk]
      · by_cases h400 : r.status_code = 400
        · simp [h403, h400, hp, typedOrOk]
        · by_cases h5 : 500 ≤ r.status_code
          · simp [h403, h400, h5, hp, typedOrOk]
          · by_cases h2 : r.status_code = 200
            · rcases h with hj | ⟨kvs, hj⟩
              · simp [h403, h400, h5, h2, hj, typedOrOk]
              · rcases hm : kvs.find? (fun kv => kv.1 == "message") with _ | kv
                · simp [h403, h400, h5, h2, hj, typedOrOk, pyGetItem, hm]
                · rcases hc : kvs.find? (fun kv => kv.1 == "change_info") with _ | kv2 <;>
                    simp [h403, h400, h5, h2, hj, typedOrOk, pyGetItem, hm, hc]
            · simp [h403, h400, h5, h2, hp, typedOrOk]

/-- C6 witness: a 503 with an HTML (unparseable) body surfaces as a typed
Server error from `update_dns` and a typed error from `get_my_ip`. -/
theorem c6_failures_typed_witness :
    typedOrOk (get_my_ip (.response ⟨503, "<html>down</html>", none, "bad"⟩)) = true ∧
    typedOrOk (update_dns (.response ⟨503, "<html>down</html>", none, "bad"⟩)) = true :=
  c6_failures_typed (.response ⟨503, "<html>down</html>", none, "bad"⟩) (Or.inl rfl)

lemma finish_exit (domain : String) (target : Json) (calls₀ : List CliCall)
    (dnsT : TransportResult) :
    (dns_update_finish domain target calls₀ dnsT).exitCode
      = exit_code_of_failure (dns_update_finish_failure target dnsT) := by
  unfold dns_update_finish dns_update_finish_failure
  by_cases ht : pyTruthy target
  · simp only [ht, if_true]
    cases hu : update_dns dnsT with
    | ok result =>
      by_cases hc : pyTruthy result.change_info = true
      · simp only [hc, if_true]
        cases result.change_info <;> rfl
      · simp [hc, exit_code_of_failure]
    | apiError e => cases e <;> rfl
    | pyError e => rfl
  · simp [ht, exit_code_of_failure]

lemma finish_calls (domain : String) (target : Json) (calls₀ : List CliCall)
    (dnsT : TransportResult) :
    (dns_update_finish domain target calls₀ dnsT).calls
      = if pyTruthy target then calls₀ ++ [.updateDnsCall domain target] else calls₀ := by
  unfold dns_update_finish
  by_cases ht : pyTruthy target
  · simp only [ht, if_true]
    cases hu : update_dns dnsT with
    | ok result =>
      by_cases hc : pyTruthy result.change_info = true
      · simp only [hc, if_true]
        cases result.change_info <;> rfl
      · simp [hc]
    | apiError e => rfl
    | pyError e => rfl
  · simp [ht]

/-- C7: for every `dns update` invocation, the exit code is exactly the
mapping of the claim applied to the failure the invocation surfaces: 0 when
fully successful, 2 for an Authentication error, and 1 for a Validation,
Server, or Network error, an argument-usage failure, and any
uncaught/unexpected error. -/
theorem c7_exit_codes (domain : String) (ip_address : Option String)
    (use_current_ip : Bool) (ipT dnsT : TransportResult) :
    (dns_update_cmd domain ip_address use_current_ip ipT dnsT).exitCode
      = exit_code_of_failure
          (dns_update_failure ip_address use_current_ip ipT dnsT) := by
  simp only [dns_update_cmd, dns_update_failure]
  cases hip : (truthyStr ip_address).isSome <;> cases hu : use_current_ip <;>
    simp only [Bool.and_self, Bool.and_false, Bool.false_and, Bool.and_true,
      Bool.true_and, Bool.not_true, Bool.not_false, if_true, if_false,
      Bool.false_eq_true, Bool.true_eq_false, ite_false, ite_true]
  · rfl
  · cases hg : get_my_ip ipT with
    | ok r => exact finish_exit domain r.ip [.getMyIpCall] dnsT
    | apiError e => cases e <;> rfl
    | pyError e => rfl
  · exact finish_exit domain _ [] dnsT
  · rfl

/-- C7 has no hypotheses, but this exercises it concretely: a 403 during
the update maps to exit code 2. -/
theorem c7_exit_codes_witness :
    (dns_update_cmd "mc.example.com." (some "1.2.3.4") false (.failure "x")
        (.response ⟨403, "", none, ""⟩)).exitCode = 2 := by
  rw [c7_exit_codes]
  rfl

/-- C9: `dns update` argument validation runs before any network call —
with "set" read as Python truthiness, the reading claim C10 makes
explicit: both options set fails with exit code 1, the mutually-exclusive
message, and no network call; neither set fails with exit code 1, the
one-of-the-two message, and no network call; exactly one set proceeds to
the network call(s). -/
theorem c9_validation_before_network :
    (∀ domain ip s (ipT dnsT : TransportResult), ip = some s → s ≠ "" →
      dns_update_cmd domain ip true ipT dnsT = ⟨1, [], [mutualExclusiveMsg]⟩) ∧
    (∀ domain ip (ipT dnsT : TransportResult), truthyStr ip = none →
      dns_update_cmd domain ip false ipT dnsT = ⟨1, [], [eitherRequiredMsg]⟩) ∧
    (∀ domain ip s (ipT dnsT : TransportResult), ip = some s → s ≠ "" →
      (dns_update_cmd domain ip false ipT dnsT).calls ≠ []) ∧
    (∀ domain ip (ipT dnsT : TransportResult), truthyStr ip = none →
      (dns_update_cmd domain ip true ipT dnsT).calls ≠ []) := by
  refine ⟨?_, ?_, ?_, ?_⟩
  · intro domain ip s ipT dnsT hip hs
    subst hip
    simp [dns_update_cmd, truthyStr, hs]
  · intro domain ip ipT dnsT hip
    simp only [dns_update_cmd]
    rw [hip]
    rfl
  · intro domain ip s ipT dnsT hip hs
    subst hip
    simp only [dns_update_cmd]
    simp only [truthyStr, if_neg hs]
    rw [show ((some s : Option String).isSome && false) = false from Bool.and_false _]
    simp only [Bool.not_false, Option.isSome_some, Bool.not_true, Bool.false_and,
      if_false, Bool.false_eq_true, ite_false]
    rw [finish_calls]
    have hts : pyTruthy (.str s) = true := by simp [pyTruthy, hs]
    simp [hts]
  · intro domain ip ipT dnsT hip
    simp only [dns_update_cmd]
    rw [hip]
    simp only [Option.isSome_none, Bool.false_and, Bool.not_false, Bool.and_true,
      Bool.not_true, if_false, Bool.false_eq_true, ite_false, Bool.true_and, if_true]
    cases hg : get_my_ip ipT with
    | ok r =>
      rw [finish_calls]
      by_cases htr : pyTruthy r.ip = true <;> simp [htr]
    | apiError e => simp
    | pyError e => simp

/-- C9 witness: `--domain d. --ip 1.2.3.4 --use-current-ip` fails with
exit code 1, the mutually-exclusive message, and no network call. -/
theorem c9_validation_before_network_witness :
    dns_update_cmd "d." (some "1.2.3.4") true (.failure "x") (.failure "y")
      = ⟨1, [], [mutualExclusiveMsg]⟩ :=
  c9_validation_before_network.1 "d." (some "1.2.3.4") "1.2.3.4"
    (.failure "x") (.failure "y") rfl (by decide)

/-- C10: `--ip` is tested by string truthiness, so an empty-string `--ip`
behaves exactly as an absent `--ip`: without `--use-current-ip` the
command fails with exit code 1 and the one-of-the-two message, issuing no
network request; with `--use-current-ip` it does not trigger the
mutually-exclusive failure — the invocation is indistinguishable from one
without `--ip` — and proceeds using the fetched current IP. -/
theorem c10_empty_ip_truthiness :
    (∀ domain (ipT dnsT : TransportResult),
      dns_update_cmd domain (some "") false ipT dnsT = ⟨1, [], [eitherRequiredMsg]⟩) ∧
    (∀ domain (ipT dnsT : TransportResult),
      dns_update_cmd domain (some "") true ipT dnsT
        = dns_update_cmd domain none true ipT dnsT) ∧
    (∀ domain (ipT dnsT : TransportResult) r, get_my_ip ipT = .ok r →
      pyTruthy r.ip = true →
      (dns_update_cmd domain (some "") true ipT dnsT).calls
        = [.getMyIpCall, .updateDnsCall domain r.ip]) := by
  refine ⟨?_, ?_, ?_⟩
  · intro domain ipT dnsT
    rfl
  · intro domain ipT dnsT
    simp only [dns_update_cmd, truthyStr]
    rfl
  · intro domain ipT dnsT r hg htr
    simp only [dns_update_cmd, truthyStr, if_pos rfl, Option.isSome_none,
      Bool.false_and, Bool.not_false, Bool.and_true, Bool.not_true, if_false,
      Bool.false_eq_true, ite_false, Bool.true_and, if_true]
    rw [hg, finish_calls]
    simp [htr]

/-- C10 witness: with `--ip ""` and `--use-current-ip`, a successful IP
fetch is followed by the DNS update with the fetched address. -/
theorem c10_empty_ip_truthiness_witness :
    (dns_update_cmd "d." (some "") true
        (.response ⟨200, "", some (.obj [("ip", .str "1.2.3.4")]), ""⟩)
        (.failure "y")).calls
      = [.getMyIpCall, .updateDnsCall "d." (.str "1.2.3.4")] :=
  c10_empty_ip_truthiness.2.2 "d."
    (.response ⟨200, "", some (.obj [("ip", .str "1.2.3.4")]), ""⟩)
    (.failure "y") ⟨.str "1.2.3.4"⟩ rfl rfl

end JscomApi
